import Mathlib

/-!
Shallow embedding of the cloakerguard-edge HTTP router (src/index.ts).

The embedding covers the host extractor (`getClientHost`), the policy
resolver and its in-memory TTL cache (`resolveHost`), the client
classifier (`isWhite`), the routing engine (`routerFn`), the outbound and
inbound header rewriters (`proxyReqRewrite`, `proxyResRewrite`), the
domain pre-check middleware, and the express-level request dispatch
(`edgeHandle`).

Conventions of the embedding:
* Request headers are modelled as plain strings where `""` stands for an
  absent (or empty) header; the source only ever observes headers through
  JavaScript truthiness, so an absent header and an empty one are
  indistinguishable to the code.
* JavaScript string primitives (`toLowerCase`, `trim`, `split`,
  `replace(/:\d+$/, "")`) are modelled over the character list of the
  string, restricted to ASCII case folding — every concrete input used in
  the development is ASCII.
* The WHATWG `URL` constructor, an external platform facility, is
  modelled by `parseURL` for the fragment the router observes: parse
  success or failure, the `protocol` component, and the `host` component
  (lower-cased, with the default port elided), for http/https URLs.
* The `lru-cache` store, an external library, is modelled from its
  documented behaviour (and the spec's CacheEntry description) as an
  association list of entries carrying their insertion time and TTL.
* A custom `rules.uaBlock` regular expression is abstracted as an opaque
  case-insensitive matcher `rtest : String → String → Bool` (pattern,
  input); the built-in default pattern is modelled concretely.
* Asynchronous I/O results (the upstream policy API response, the
  resolver outcome seen by the middleware) are passed to the embedded
  functions as explicit arguments.
-/

namespace CloakerGuard

/-- The `rules` object of a domain policy: `rules?: { uaBlock?: string }`. -/
structure Rules where
  uaBlock : Option String
deriving DecidableEq, Repr

/-- Type `DomainCfg` from src/index.ts: the per-domain routing policy. -/
structure DomainCfg where
  host : String
  whiteOrigin : Option String
  blackOrigin : Option String
  rules : Option Rules
  status : Option String
deriving DecidableEq, Repr

/-! ### JavaScript string primitives (ASCII fragment) -/

/-- ASCII model of JavaScript `String.prototype.toLowerCase`. -/
def jsToLower (s : String) : String :=
  String.mk (s.toList.map Char.toLower)

/-- Whitespace recognised by the model of JavaScript `trim`. -/
def isJsWS (c : Char) : Bool :=
  c == ' ' || c == '\t' || c == '\n' || c == '\r' || c == '\x0b' || c == '\x0c'

/-- Model of JavaScript `String.prototype.trim` (ASCII whitespace). -/
def jsTrim (s : String) : String :=
  String.mk (((s.toList.dropWhile isJsWS).reverse.dropWhile isJsWS).reverse)

/-- Model of `s.replace(/:\d+$/, "")`: drop a trailing colon-and-digits
run, when present. -/
def stripPort (s : String) : String :=
  let rev := s.toList.reverse
  let ds := rev.takeWhile Char.isDigit
  match rev.drop ds.length with
  | ':' :: rest => if ds.isEmpty then s else String.mk rest.reverse
  | _ => s

/-- Model of `s.split(",")[0].trim()`: the first comma-separated value,
trimmed. -/
def firstForwarded (s : String) : String :=
  jsTrim (String.mk (s.toList.takeWhile (fun c => c != ',')))

/-! ### Host extractor -/

/-- The request headers observed by `getClientHost`; `""` denotes an
absent (or empty) header. -/
structure HeadersIn where
  xOriginalHost : String
  xForwardedHost : String
  host : String
deriving DecidableEq, Repr

/-- Function `getClientHost` from src/index.ts: X-Original-Host, else the first
comma-separated X-Forwarded-Host value, else Host; lower-cased, trimmed,
trailing `:port` stripped. -/
def getClientHost (h : HeadersIn) : String :=
  let xoh :=
    if h.xOriginalHost != "" then h.xOriginalHost
    else if firstForwarded h.xForwardedHost != "" then firstForwarded h.xForwardedHost
    else h.host
  stripPort (jsTrim (jsToLower xoh))

/-- The host-extraction precedence as the specification phrases it: the
first non-empty candidate among the override header, the first
comma-separated forwarded-host value, and the literal host header, then
lower-cased, trimmed and stripped of a trailing port. -/
def getClientHostSpec (h : HeadersIn) : String :=
  let candidates := [h.xOriginalHost, firstForwarded h.xForwardedHost, h.host]
  let chosen := (candidates.find? (fun s => s != "")).getD ""
  stripPort (jsTrim (jsToLower chosen))

example : getClientHost ⟨"", "A.example.com:8080, b.example.com", "c.example.com"⟩
    = "a.example.com" := by decide

example : getClientHost ⟨"", "", "Shop.Example.COM:443"⟩ = "shop.example.com" := by decide

/-! ### URL parsing model

Models the WHATWG `URL` constructor for what the router observes of it:
whether construction throws, the `protocol` component, and — for
http/https URLs — the `host` component (lower-cased, userinfo removed,
default port elided, port digits normalised). Host-character validation
beyond the structural rules is not modelled. -/

/-- The two URL components read by the router and the header rewriter. -/
structure URLParts where
  protocol : String
  host : String
deriving DecidableEq, Repr

/-- Characters allowed after the first letter of a URL scheme. -/
def isSchemeChar (c : Char) : Bool :=
  c.isAlphanum || c == '+' || c == '-' || c == '.'

/-- Split a URL string into its lower-cased scheme and the remainder
after the colon; fails when no scheme is present. -/
def splitScheme (s : String) : Option (String × List Char) :=
  match s.toList with
  | [] => none
  | c :: rest =>
    if c.isAlpha then
      let schemeRest := rest.takeWhile isSchemeChar
      match rest.drop schemeRest.length with
      | ':' :: tail =>
          some (String.mk ((c :: schemeRest).map Char.toLower), tail)
      | _ => none
    else none

/-- Decimal value of a digit run. -/
def digitsToNat (l : List Char) : Nat :=
  l.foldl (fun n c => n * 10 + (c.toNat - 48)) 0

/-- Default port of a special scheme. -/
def defaultPort (scheme : String) : Nat :=
  if scheme = "http" then 80 else 443

/-- Assemble the `host` component from a host and an optional `:port`
tail: an empty host fails, an empty or default port is elided, a
non-digit port fails. -/
def withPort (scheme : String) (host : List Char) (portPart : List Char) :
    Option String :=
  if host.isEmpty then none else
  let hostStr := String.mk (host.map Char.toLower)
  match portPart with
  | [] => some hostStr
  | ':' :: ds =>
      if ds.isEmpty then some hostStr
      else if ds.all Char.isDigit then
        let p := digitsToNat ds
        if p > 65535 then none
        else if p = defaultPort scheme then some hostStr
        else some (hostStr ++ ":" ++ toString p)
      else none
  | _ => none

/-- Parse the authority of a special (http/https) URL: skip leading
slashes, cut at the first path/query/fragment delimiter, drop userinfo,
and split host from port (with a bracketed IPv6 form). -/
def parseHostPort (scheme : String) (tail : List Char) : Option String :=
  let t := tail.dropWhile (fun c => c == '/' || c == '\\')
  let auth := t.takeWhile (fun c => !(c == '/' || c == '\\' || c == '?' || c == '#'))
  let hp := (auth.reverse.takeWhile (fun c => c != '@')).reverse
  match hp with
  | '[' :: rest =>
      let inner := rest.takeWhile (fun c => c != ']')
      match rest.drop inner.length with
      | ']' :: portPart => withPort scheme ('[' :: (inner ++ [']'])) portPart
      | _ => none
  | _ =>
      let host := hp.takeWhile (fun c => c != ':')
      withPort scheme host (hp.drop host.length)

/-- Model of `new URL(s)`: `none` when the constructor throws. For
non-special schemes only the protocol is tracked; the router rejects
those before reading the host. -/
def parseURL (s : String) : Option URLParts :=
  match splitScheme s with
  | none => none
  | some (scheme, rest) =>
    if scheme = "http" || scheme = "https" then
      match parseHostPort scheme rest with
      | some h => some ⟨scheme ++ ":", h⟩
      | none => none
    else
      some ⟨scheme ++ ":", ""⟩

example : parseURL "https://cdn.example.com" = some ⟨"https:", "cdn.example.com"⟩ := by decide
example : parseURL "http://Shop.Example.com:8080/x?q=1" =
    some ⟨"http:", "shop.example.com:8080"⟩ := by decide
example : parseURL "https://a.example.com:443" = some ⟨"https:", "a.example.com"⟩ := by decide
example : parseURL "notaurl" = none := by decide
example : parseURL "http://" = none := by decide
example : parseURL "ftp://evil.example" = some ⟨"ftp:", ""⟩ := by decide

/-! ### Client classifier -/

/-- The alternatives of the built-in bot pattern
`/(bot|crawler|spider|facebookexternalhit|headlesschrome)/i`. -/
def defaultUAKeywords : List String :=
  ["bot", "crawler", "spider", "facebookexternalhit", "headlesschrome"]

/-- Substring occurrence test over character lists. -/
def containsSeq (pat : List Char) : List Char → Bool
  | [] => pat.isEmpty
  | c :: rest => pat.isPrefixOf (c :: rest) || containsSeq pat rest

/-- Case-insensitive test of the built-in bot pattern. -/
def defaultUAMatch (ua : String) : Bool :=
  defaultUAKeywords.any (fun p => containsSeq p.toList (jsToLower ua).toList)

/-- Function `isWhite` from src/index.ts: tests the policy's `uaBlock` pattern
(when present and non-empty, via the abstract case-insensitive matcher
`rtest`), else the built-in bot pattern, against the user-agent. The
function returns `true` exactly when the pattern MATCHES. This version
models only the non-throwing path of the source function: the
`new RegExp(p, "i")` constructor can throw on a malformed pattern, which
`isWhiteE` below tracks explicitly. -/
def isWhite (rtest : String → String → Bool) (ua : String) (cfg : DomainCfg) : Bool :=
  match cfg.rules with
  | some rs =>
    match rs.uaBlock with
    | some p => if p != "" then rtest p ua else defaultUAMatch ua
    | none => defaultUAMatch ua
  | none => defaultUAMatch ua

example : defaultUAMatch "Googlebot/2.1" = true := by decide
example : defaultUAMatch "Mozilla/5.0 (Windows NT 10.0)" = false := by decide

/-! ### Routing engine -/

/-- Final observable state of one `router` invocation: the `_edgeRoute`
and `_edgeTarget` request fields and the returned target. -/
structure RouterResult where
  route : String
  target : String
  ret : String
deriving DecidableEq, Repr

/-- Constant `DEFAULT_ORIGIN`: the environment value when truthy, else the
built-in `"https://example.com"`. -/
def mkDefaultOrigin (env : Option String) : String :=
  match env with
  | some s => if s != "" then s else "https://example.com"
  | none => "https://example.com"

/-- The main proxy `router` from src/index.ts: fallback without a
policy; classify, pick the candidate origin; validate it as an http(s)
URL; loop-check its host against the client host; fall back on a
missing, malformed or looping target. -/
def routerFn (defaultOrigin : String) (rtest : String → String → Bool)
    (clientHost : String) (cfg? : Option DomainCfg) (ua : String) : RouterResult :=
  match cfg? with
  | none => ⟨"fallback", defaultOrigin, defaultOrigin⟩
  | some cfg =>
    let white := isWhite rtest ua cfg
    let target := (if white then cfg.whiteOrigin else cfg.blackOrigin).getD ""
    let route₀ := if white then "white" else "black"
    let target₀ := if target != "" then target else defaultOrigin
    if target != "" then
      match parseURL target with
      | some t =>
        if t.protocol = "http:" || t.protocol = "https:" then
          if jsToLower t.host = clientHost then
            ⟨"loop-fallback", defaultOrigin, defaultOrigin⟩
          else
            ⟨route₀, target₀, target⟩
        else ⟨"no-target-fallback", defaultOrigin, defaultOrigin⟩
      | none => ⟨"no-target-fallback", defaultOrigin, defaultOrigin⟩
    else ⟨"no-target-fallback", defaultOrigin, defaultOrigin⟩

/-- The scenario policy of the specification. -/
def cfgShop : DomainCfg :=
  ⟨"shop.example.com", some "https://cdn.example.com", some "https://decoy.example.com",
    none, none⟩

example :
    routerFn "https://fb.example" (fun _ _ => false) "shop.example.com"
      (some cfgShop) "Googlebot/2.1" =
    ⟨"white", "https://cdn.example.com", "https://cdn.example.com"⟩ := by decide

example :
    routerFn "https://fb.example" (fun _ _ => false) "shop.example.com"
      (some cfgShop) "Mozilla/5.0" =
    ⟨"black", "https://decoy.example.com", "https://decoy.example.com"⟩ := by decide

/-! ### Classifier and router with the RegExp constructor's throw tracked

In the source, the router calls `isWhite` BEFORE its try block, and
`isWhite` constructs `new RegExp(cfg.rules.uaBlock, "i")`, which throws a
SyntaxError on a malformed pattern; that throw therefore escapes the
router. The variants below make this error path explicit: `rok p`
abstracts whether the platform's RegExp constructor accepts pattern `p`,
and `regexScan` is a concrete structural model of its rejections,
sufficient to exhibit a concretely rejected pattern. -/

/-- Structural model of the RegExp constructor's pattern validation:
scans with a group-nesting depth and an inside-character-class flag, and
rejects an unmatched `(` or `)` outside a class, an unterminated class,
or a trailing backslash. Finer-grained platform rejections (for
example malformed quantifiers) are not modelled; the model is only used
to exhibit patterns the platform certainly rejects, such as `(`. -/
def regexScan : List Char → Nat → Bool → Bool
  | [], d, inC => d == 0 && !inC
  | '\\' :: [], _, _ => false
  | '\\' :: _ :: rest, d, inC => regexScan rest d inC
  | c :: rest, d, inC =>
    if inC then
      if c = ']' then regexScan rest d false else regexScan rest d true
    else
      if c = '[' then regexScan rest d true
      else if c = '(' then regexScan rest (d + 1) false
      else if c = ')' then
        match d with
        | 0 => false
        | n + 1 => regexScan rest n false
      else regexScan rest d false

/-- Concrete instance of the abstract compile test: whether the
structural scan accepts the pattern. -/
def regexCompiles (p : String) : Bool :=
  regexScan p.toList 0 false

example : regexCompiles "(" = false := by decide
example : regexCompiles "[" = false := by decide
example : regexCompiles "googlebot" = true := by decide
example : regexCompiles "[(]" = true := by decide

/-- Function `isWhite` with the RegExp constructor's failure made
explicit: when the policy carries a non-empty custom pattern, the
constructor either rejects it (`rok p = false`: the SyntaxError the
source throws) or yields the compiled matcher, abstracted as `rtest`. -/
def isWhiteE (rok : String → Bool) (rtest : String → String → Bool)
    (ua : String) (cfg : DomainCfg) : Except Unit Bool :=
  match cfg.rules with
  | some rs =>
    match rs.uaBlock with
    | some p =>
        if p != "" then
          if rok p then .ok (rtest p ua) else .error ()
        else .ok (defaultUAMatch ua)
    | none => .ok (defaultUAMatch ua)
  | none => .ok (defaultUAMatch ua)

/-- The main proxy `router` with the classifier's throw tracked: the
source calls `isWhite` before its try block, so a pattern-compilation
SyntaxError escapes the router as `.error`; otherwise the decision is
computed exactly as in `routerFn`. -/
def routerFnE (defaultOrigin : String) (rok : String → Bool)
    (rtest : String → String → Bool) (clientHost : String)
    (cfg? : Option DomainCfg) (ua : String) : Except Unit RouterResult :=
  match cfg? with
  | none => .ok ⟨"fallback", defaultOrigin, defaultOrigin⟩
  | some cfg =>
    match isWhiteE rok rtest ua cfg with
    | .error e => .error e
    | .ok white =>
      let target := (if white then cfg.whiteOrigin else cfg.blackOrigin).getD ""
      let route₀ := if white then "white" else "black"
      let target₀ := if target != "" then target else defaultOrigin
      .ok <|
        if target != "" then
          match parseURL target with
          | some t =>
            if t.protocol = "http:" || t.protocol = "https:" then
              if jsToLower t.host = clientHost then
                ⟨"loop-fallback", defaultOrigin, defaultOrigin⟩
              else
                ⟨route₀, target₀, target⟩
            else ⟨"no-target-fallback", defaultOrigin, defaultOrigin⟩
          | none => ⟨"no-target-fallback", defaultOrigin, defaultOrigin⟩
        else ⟨"no-target-fallback", defaultOrigin, defaultOrigin⟩

/-- A policy whose custom pattern is the malformed regex `(`. -/
def cfgBadPattern : DomainCfg :=
  ⟨"shop.example.com", some "https://cdn.example.com", some "https://decoy.example.com",
    some ⟨some "("⟩, none⟩

/-- A policy whose custom pattern is a well-formed regex. -/
def cfgCustom : DomainCfg :=
  ⟨"shop.example.com", some "https://cdn.example.com", some "https://decoy.example.com",
    some ⟨some "googlebot"⟩, none⟩

/-! ### Policy cache and resolver -/

/-- One cache entry, carrying its insertion time and TTL (the spec's
CacheEntry; `lru-cache` is an external library, modelled from its
documented time-expiry behaviour). Times are abstract naturals. -/
structure CacheEntry where
  value : DomainCfg
  insertedAt : Nat
  ttl : Nat
deriving DecidableEq, Repr

/-- The policy cache: an association list keyed by hostname. Capacity
eviction (max 5000 entries) is not modelled; no claim depends on it. -/
abbrev Cache : Type := List (String × CacheEntry)

/-- Cache read at time `now`: the stored value while the entry is within
its TTL, nothing afterwards. -/
def cacheGet (c : Cache) (now : Nat) (k : String) : Option DomainCfg :=
  match List.lookup k c with
  | some e => if now < e.insertedAt + e.ttl then some e.value else none
  | none => none

/-- Cache write at time `now` with TTL `ttl`. -/
def cacheSet (c : Cache) (now ttl : Nat) (k : String) (v : DomainCfg) : Cache :=
  (k, ⟨v, now, ttl⟩) :: List.filter (fun p => p.1 != k) c

/-- The ways a resolution can fail: a non-success, non-404 upstream
status, or a body that does not parse as a `DomainCfg`. -/
inductive ResolveError where
  | httpError (status : Nat)
  | malformedBody
deriving DecidableEq, Repr

/-- The upstream policy-API response: its HTTP status and the result of
parsing its body as a `DomainCfg`. -/
structure UpstreamResponse where
  status : Nat
  body : Option DomainCfg
deriving DecidableEq, Repr

/-- Predicate `Response.ok` of the fetch API: status in the range 200–299. -/
def statusOk (s : Nat) : Bool :=
  decide (200 ≤ s) && decide (s ≤ 299)

/-- Everything one `resolveHost` call produces: the returned value (or
the thrown error), the cache afterwards, and whether the upstream API
was called. -/
structure ResolveStep where
  result : Except ResolveError (Option DomainCfg)
  cache : Cache
  upstreamCalled : Bool

/-- Function `resolveHost` from src/index.ts, at time `now` with configured TTL
`ttl`: serve a live cache entry for the lower-cased hostname without an
upstream call; otherwise consult the upstream response — 404 yields
`none` uncached, any other non-success status throws, and a successful
parse is cached under the lower-cased hostname and returned. -/
def resolveHost (c : Cache) (now ttl : Nat) (host : String)
    (resp : UpstreamResponse) : ResolveStep :=
  let key := jsToLower host
  match cacheGet c now key with
  | some hit => ⟨.ok (some hit), c, false⟩
  | none =>
    if resp.status = 404 then ⟨.ok none, c, true⟩
    else if !statusOk resp.status then ⟨.error (.httpError resp.status), c, true⟩
    else
      match resp.body with
      | some cfg => ⟨.ok (some cfg), cacheSet c now ttl key cfg, true⟩
      | none => ⟨.error .malformedBody, c, true⟩

/-! ### Pre-check middleware -/

/-- What the domain pre-check middleware does with a request: answer it
directly with a status, or attach the policy and pass the request on. -/
inductive PrecheckDecision where
  | respond (status : Nat) (cacheControlNoStore : Bool)
  | proceed (host : String) (cfg : DomainCfg)
deriving DecidableEq, Repr

/-- The pre-check middleware from src/index.ts, as a function of the
awaited `resolveHost` outcome: a thrown resolution error answers 502, a
`null` policy answers 404 with `Cache-Control: no-store`, and a policy
lets the request proceed with `_edgeHost`/`_edgeCfg` attached. -/
def precheck (host : String) (r : Except ResolveError (Option DomainCfg)) :
    PrecheckDecision :=
  match r with
  | .error _ => .respond 502 false
  | .ok none => .respond 404 true
  | .ok (some cfg) => .proceed host cfg

/-! ### Header rewriters -/

/-- The headers written on the outbound (edge→origin) request. -/
structure ProxyReqOut where
  hostHeader : Option String
  xOriginalHost : String
  xForwardedHost : String
  xForwardedProto : String
deriving DecidableEq, Repr

/-- The `proxyReq` hook from src/index.ts: re-derive the destination
host from `_edgeTarget` (default origin when unset), set `Host` to it
when non-empty, and set the forwarding headers to the original client's
host and scheme. -/
def proxyReqRewrite (defaultOrigin : String) (edgeTarget : Option String)
    (edgeHost : Option String) (h : HeadersIn) (secure : Bool) : ProxyReqOut :=
  let target :=
    match edgeTarget with
    | some t => if t != "" then t else defaultOrigin
    | none => defaultOrigin
  let destHost :=
    match parseURL target with
    | some u => u.host
    | none => ""
  let clientHost :=
    match edgeHost with
    | some hh => if hh != "" then hh else getClientHost h
    | none => getClientHost h
  ⟨if destHost != "" then some destHost else none,
    clientHost, clientHost, if secure then "https" else "http"⟩

/-- The three diagnostic headers written on the inbound (origin→client)
response. -/
structure ProxyResOut where
  xEdgeRoute : String
  xEdgeTarget : String
  xEdgeHost : String
deriving DecidableEq, Repr

/-- The `proxyRes` interceptor from src/index.ts: `_edgeRoute` (or
`"unknown"`), `_edgeTarget` (or `"none"`), `_edgeHost` (or the
re-extracted client host). -/
def proxyResRewrite (edgeRoute edgeTarget edgeHost : Option String)
    (h : HeadersIn) : ProxyResOut :=
  ⟨(match edgeRoute with
    | some s => if s != "" then s else "unknown"
    | none => "unknown"),
   (match edgeTarget with
    | some s => if s != "" then s else "none"
    | none => "none"),
   (match edgeHost with
    | some s => if s != "" then s else getClientHost h
    | none => getClientHost h)⟩

/-! ### Request dispatch -/

/-- One incoming request, as the embedded middleware chain observes it. -/
structure EdgeRequest where
  path : String
  headers : HeadersIn
  userAgent : String
  secure : Bool
deriving DecidableEq, Repr

/-- Express mount `"/api"`: the path itself or any path under it. -/
def isApiPath (p : String) : Bool :=
  p == "/api" || List.isPrefixOf "/api/".toList p.toList

/-- The ACME challenge route pattern. -/
def isAcmePath (p : String) : Bool :=
  List.isPrefixOf "/.well-known/acme-challenge/".toList p.toList

/-- The response classes the embedded part of the app can produce. ACME
handling and the bodies of proxied responses are delegated to external
collaborators and left opaque; `mainProxied` carries the three
diagnostic headers the interceptor attached. -/
inductive EdgeResponse where
  | acme
  | apiProxied
  | health (body : String)
  | echo
  | notConfigured (host : String)
  | resolveError
  | mainProxied (xEdgeRoute xEdgeTarget xEdgeHost : String)
deriving DecidableEq, Repr

/-- The express app's routing of one request, with the awaited policy
resolution passed in: ACME and `/api` and the health/debug routes are
registered ahead of the pre-check; everything else goes through the
pre-check and then the main proxy, whose router and response
interceptor produce the diagnostic headers. -/
def edgeHandle (defaultOrigin : String) (rtest : String → String → Bool)
    (resolveResult : Except ResolveError (Option DomainCfg))
    (req : EdgeRequest) : EdgeResponse :=
  if isAcmePath req.path then .acme
  else if isApiPath req.path then .apiProxied
  else if req.path == "/.well-known/healthz" then .health "ok"
  else if req.path == "/.well-known/readyz" then .health "ok"
  else if req.path == "/__edge-check" then .echo
  else
    let host := getClientHost req.headers
    match resolveResult with
    | .error _ => .resolveError
    | .ok none => .notConfigured host
    | .ok (some cfg) =>
      let rr := routerFn defaultOrigin rtest host (some cfg) req.userAgent
      let hdrs := proxyResRewrite (some rr.route) (some rr.target) (some host) req.headers
      .mainProxied hdrs.xEdgeRoute hdrs.xEdgeTarget hdrs.xEdgeHost

/-- The status the embedded code itself answers with; `none` when the
response is produced by a delegated proxy transport or the ACME helper. -/
def localStatus : EdgeResponse → Option Nat
  | .health _ => some 200
  | .echo => some 200
  | .notConfigured _ => some 404
  | .resolveError => some 502
  | .acme => none
  | .apiProxied => none
  | .mainProxied _ _ _ => none

/-- Whether the response is a proxied response (produced by forwarding
the request to an origin through a proxy middleware). -/
def isProxiedResponse : EdgeResponse → Bool
  | .apiProxied => true
  | .mainProxied _ _ _ => true
  | _ => false

/-- The `x-edge-route` header of a response, when present. -/
def responseRouteHeader : EdgeResponse → Option String
  | .mainProxied r _ _ => some r
  | _ => none

/-- The `x-edge-target` header of a response, when present. -/
def responseTargetHeader : EdgeResponse → Option String
  | .mainProxied _ t _ => some t
  | _ => none

/-- The `x-edge-host` header of a response, when present. -/
def responseHostHeader : EdgeResponse → Option String
  | .mainProxied _ _ h => some h
  | _ => none

/-- An abstract matcher that never matches, used for concrete instances
whose policy has no custom pattern (the matcher is then never consulted). -/
def rtFalse : String → String → Bool := fun _ _ => false

/-! ### Helper lemmas -/

/-- A freshly written cache entry is returned by any read within its TTL. -/
theorem cacheGet_cacheSet_self (c : Cache) (now₂ now ttl : Nat) (k : String)
    (v : DomainCfg) (h : now₂ < now + ttl) :
    cacheGet (cacheSet c now ttl k v) now₂ k = some v := by
  unfold cacheGet cacheSet
  simp [List.lookup, h]

/-- A live cache entry short-circuits `resolveHost`: the cached value is
returned, the cache is untouched, and the upstream API is not called. -/
theorem resolveHost_hit (c : Cache) (now ttl : Nat) (host : String)
    (resp : UpstreamResponse) (cfg : DomainCfg)
    (h : cacheGet c now (jsToLower host) = some cfg) :
    resolveHost c now ttl host resp = ⟨.ok (some cfg), c, false⟩ := by
  simp only [resolveHost]
  rw [h]

/-! ### C2 -/

/-- C2: for every request, the extracted client host follows the claimed
precedence — the override header when non-empty, else the trimmed first
comma-separated forwarded-host value when non-empty, else the host
header, else the empty string — and the chosen value is lower-cased,
trimmed and stripped of a trailing `:port`. (`getClientHost` is a total
function, so extraction cannot throw.) -/
theorem c2_client_host_precedence (h : HeadersIn) :
    getClientHost h = getClientHostSpec h := by
  unfold getClientHost getClientHostSpec
  by_cases h1 : h.xOriginalHost != ""
  · simp [h1, List.find?]
  · by_cases h2 : firstForwarded h.xForwardedHost != ""
    · simp [h1, h2, List.find?]
    · by_cases h3 : h.host != ""
      · simp [h1, h2, h3, List.find?]
      · have h4 : h.host = "" := by simpa using h3
        simp [h1, h2, h3, List.find?, h4]

/-- Closed instance of C2: a mixed-case original-host override wins over
the forwarded and literal host headers. -/
theorem c2_witness :
    getClientHost ⟨"Shop.Example.COM:8443", "cdn.example.com", "edge.internal"⟩ =
      getClientHostSpec ⟨"Shop.Example.COM:8443", "cdn.example.com", "edge.internal"⟩ :=
  c2_client_host_precedence ⟨"Shop.Example.COM:8443", "cdn.example.com", "edge.internal"⟩

/-! ### C3 -/

/-- C3: on a cache miss, `resolveHost` maps the upstream response as
claimed — 404 returns no policy and caches nothing; any other
non-success status raises a resolution error and caches nothing; a
success status with a parsable body stores the policy under the
lower-cased hostname with the configured TTL (so an in-TTL read sees
it) and returns it. -/
theorem c3_resolver_status_mapping (c : Cache) (now ttl : Nat) (host : String)
    (resp : UpstreamResponse)
    (hmiss : cacheGet c now (jsToLower host) = none) :
    (resp.status = 404 → resolveHost c now ttl host resp = ⟨.ok none, c, true⟩) ∧
    (resp.status ≠ 404 → statusOk resp.status = false →
      resolveHost c now ttl host resp = ⟨.error (.httpError resp.status), c, true⟩) ∧
    (∀ cfg, resp.status ≠ 404 → statusOk resp.status = true → resp.body = some cfg →
      resolveHost c now ttl host resp =
        ⟨.ok (some cfg), cacheSet c now ttl (jsToLower host) cfg, true⟩ ∧
      (0 < ttl →
        cacheGet (cacheSet c now ttl (jsToLower host) cfg) now (jsToLower host) =
          some cfg)) := by
  simp only [resolveHost]
  rw [hmiss]
  refine ⟨?_, ?_, ?_⟩
  · intro h404
    simp [h404]
  · intro h404 hfail
    simp [h404, hfail]
  · intro cfg h404 hok hbody
    refine ⟨by simp [h404, hok, hbody], ?_⟩
    intro httl
    exact cacheGet_cacheSet_self c now now ttl (jsToLower host) cfg (by omega)

/-- Closed instance of C3: a fresh cache, a 200 upstream response with
the scenario policy as body. -/
theorem c3_witness :
    cacheGet ([] : Cache) 0 (jsToLower "Shop.Example.com") = none ∧
    resolveHost [] 0 30 "Shop.Example.com" ⟨200, some cfgShop⟩ =
      ⟨.ok (some cfgShop), cacheSet [] 0 30 "shop.example.com" cfgShop, true⟩ := by
  refine ⟨rfl, ?_⟩
  have h := c3_resolver_status_mapping [] 0 30 "Shop.Example.com" ⟨200, some cfgShop⟩ rfl
  exact (h.2.2 cfgShop (by decide) (by decide) rfl).1

/-! ### C4 -/

/-- C4: when resolution fails with a resolution error (here: an upstream
status that is neither success nor 404, on a cache miss), the pre-check
answers 502, the app's response to a request that reaches the pre-check
is the 502 resolve-error response — not the 404 not-configured response
— and the request is not proxied to any origin; moreover every
resolution failure, whatever its shape, yields that same 502 response. -/
theorem c4_resolution_error_502
    (d : String) (rtest : String → String → Bool) (req : EdgeRequest)
    (c : Cache) (now ttl : Nat) (resp : UpstreamResponse)
    (hacme : isAcmePath req.path = false) (hapi : isApiPath req.path = false)
    (hhz : (req.path == "/.well-known/healthz") = false)
    (hrz : (req.path == "/.well-known/readyz") = false)
    (hec : (req.path == "/__edge-check") = false)
    (hmiss : cacheGet c now (jsToLower (getClientHost req.headers)) = none)
    (h404 : resp.status ≠ 404) (hfail : statusOk resp.status = false) :
    (resolveHost c now ttl (getClientHost req.headers) resp).result =
        .error (.httpError resp.status) ∧
    precheck (getClientHost req.headers)
        (resolveHost c now ttl (getClientHost req.headers) resp).result =
      .respond 502 false ∧
    edgeHandle d rtest
        (resolveHost c now ttl (getClientHost req.headers) resp).result req =
      .resolveError ∧
    localStatus (edgeHandle d rtest
        (resolveHost c now ttl (getClientHost req.headers) resp).result req) =
      some 502 ∧
    isProxiedResponse (edgeHandle d rtest
        (resolveHost c now ttl (getClientHost req.headers) resp).result req) =
      false ∧
    (∀ e : ResolveError, edgeHandle d rtest (.error e) req = .resolveError) := by
  have hres : (resolveHost c now ttl (getClientHost req.headers) resp).result =
      .error (.httpError resp.status) := by
    simp only [resolveHost]
    rw [hmiss]
    simp [h404, hfail]
  have hedge : edgeHandle d rtest
      (resolveHost c now ttl (getClientHost req.headers) resp).result req =
      .resolveError := by
    rw [hres]
    simp [edgeHandle, hacme, hapi, hhz, hrz, hec]
  refine ⟨hres, ?_, hedge, ?_, ?_, ?_⟩
  · rw [hres]; rfl
  · rw [hedge]; rfl
  · rw [hedge]; rfl
  · intro e
    simp [edgeHandle, hacme, hapi, hhz, hrz, hec]

/-- Closed instance of C4: an upstream 500 on a fresh cache, for an
ordinary page request. -/
theorem c4_witness :
    edgeHandle "https://fb.example" rtFalse
      (resolveHost [] 0 30
        (getClientHost ⟨"", "", "shop.example.com"⟩) ⟨500, none⟩).result
      ⟨"/", ⟨"", "", "shop.example.com"⟩, "Mozilla/5.0", true⟩ = .resolveError :=
  (c4_resolution_error_502 "https://fb.example" rtFalse
    ⟨"/", ⟨"", "", "shop.example.com"⟩, "Mozilla/5.0", true⟩
    [] 0 30 ⟨500, none⟩ rfl rfl rfl rfl rfl rfl (by decide) rfl).2.2.1

/-! ### C5 -/

/-- C5: once a hostname resolves successfully, the resulting cache holds
an entry for the lower-cased hostname with the returned policy as value,
and any second `resolveHost` call within that entry's TTL window returns
the identical policy, leaves the cache unchanged, and issues no upstream
call — whatever the upstream would have answered. -/
theorem c5_cache_idempotence
    (c : Cache) (now₁ ttl : Nat) (host : String) (resp₁ : UpstreamResponse)
    (cfg : DomainCfg) (c₁ : Cache) (b : Bool)
    (h1 : resolveHost c now₁ ttl host resp₁ = ⟨.ok (some cfg), c₁, b⟩) :
    ∃ e : CacheEntry, List.lookup (jsToLower host) c₁ = some e ∧ e.value = cfg ∧
      ∀ now₂ resp₂, now₂ < e.insertedAt + e.ttl →
        resolveHost c₁ now₂ ttl host resp₂ = ⟨.ok (some cfg), c₁, false⟩ := by
  simp only [resolveHost] at h1
  rcases hc : cacheGet c now₁ (jsToLower host) with _ | hit
  · rw [hc] at h1
    by_cases h404 : resp₁.status = 404
    · simp [h404] at h1
    · rcases hok : statusOk resp₁.status with _ | _
      · simp [h404, hok] at h1
      · rcases hb : resp₁.body with _ | cfg₂
        · simp [h404, hok, hb] at h1
        · simp [h404, hok, hb, ResolveStep.mk.injEq] at h1
          obtain ⟨hcfg, hc₁, _⟩ := h1
          refine ⟨⟨cfg, now₁, ttl⟩, ?_, rfl, ?_⟩
          · rw [← hc₁]
            simp [cacheSet, List.lookup, hcfg]
          · intro now₂ resp₂ hlt
            have hget : cacheGet c₁ now₂ (jsToLower host) = some cfg := by
              rw [← hc₁, hcfg]
              exact cacheGet_cacheSet_self c now₂ now₁ ttl (jsToLower host) cfg hlt
            exact resolveHost_hit c₁ now₂ ttl host resp₂ cfg hget
  · rw [hc] at h1
    simp [ResolveStep.mk.injEq] at h1
    obtain ⟨hcfg, hc₁, _⟩ := h1
    subst hcfg
    subst hc₁
    unfold cacheGet at hc
    rcases hl : List.lookup (jsToLower host) c with _ | e
    · rw [hl] at hc; simp at hc
    · rw [hl] at hc
      by_cases hlive : now₁ < e.insertedAt + e.ttl
      · have he : e.value = hit := by simpa [hlive] using hc
        refine ⟨e, rfl, he, ?_⟩
        intro now₂ resp₂ hlt
        have hget : cacheGet c now₂ (jsToLower host) = some hit := by
          unfold cacheGet
          rw [hl]
          simp [hlt, he]
        exact resolveHost_hit c now₂ ttl host resp₂ hit hget
      · simp [hlive] at hc

/-- Closed instance of C5: a first resolution from a fresh cache, then
the guarantee for all in-TTL second calls. -/
theorem c5_witness :
    ∃ e : CacheEntry,
      List.lookup (jsToLower "a.example")
        (cacheSet [] 0 30 "a.example" cfgShop) = some e ∧ e.value = cfgShop ∧
      ∀ now₂ resp₂, now₂ < e.insertedAt + e.ttl →
        resolveHost (cacheSet [] 0 30 "a.example" cfgShop) now₂ 30 "a.example" resp₂ =
          ⟨.ok (some cfgShop), cacheSet [] 0 30 "a.example" cfgShop, false⟩ :=
  c5_cache_idempotence [] 0 30 "a.example" ⟨200, some cfgShop⟩ cfgShop
    (cacheSet [] 0 30 "a.example" cfgShop) true rfl

/-! ### C6 -/

/-- C6: with a policy present, whenever the classification's candidate
target is non-empty, parses as an http(s) URL, and its host (which
retains any explicit non-default port) lower-cased equals the extracted
client host, the router decides `loop-fallback` with the configured
default origin as target — never the would-be-looping candidate. -/
theorem c6_loop_fallback
    (d : String) (rtest : String → String → Bool) (clientHost ua : String)
    (cfg : DomainCfg) (u : URLParts)
    (hne : (((if isWhite rtest ua cfg then cfg.whiteOrigin else cfg.blackOrigin).getD "")
      != "") = true)
    (hp : parseURL ((if isWhite rtest ua cfg then cfg.whiteOrigin
      else cfg.blackOrigin).getD "") = some u)
    (hscheme : u.protocol = "http:" ∨ u.protocol = "https:")
    (hloop : jsToLower u.host = clientHost) :
    routerFn d rtest clientHost (some cfg) ua = ⟨"loop-fallback", d, d⟩ := by
  unfold routerFn
  rcases hscheme with hs | hs <;>
    simp [hne, hp, hs, hloop]

/-- Closed instance of C6: a policy whose selected origin points back at
the client host. -/
theorem c6_witness :
    routerFn "https://fb.example" rtFalse "shop.example.com"
      (some ⟨"shop.example.com", some "http://shop.example.com", none, none, none⟩)
      "Googlebot/2.1" =
    ⟨"loop-fallback", "https://fb.example", "https://fb.example"⟩ :=
  c6_loop_fallback "https://fb.example" rtFalse "shop.example.com" "Googlebot/2.1"
    ⟨"shop.example.com", some "http://shop.example.com", none, none, none⟩
    ⟨"http:", "shop.example.com"⟩ (by decide) (by decide) (Or.inl rfl) (by decide)

/-! ### C7 -/

/-- C7: with a policy present, if the candidate target selected by the
classification is unset or empty, fails to parse as a URL, or parses
with a scheme other than http/https, the router decides
`no-target-fallback` with the configured default origin as target; the
malformed candidate is never the decision's target. -/
theorem c7_no_target_fallback
    (d : String) (rtest : String → String → Bool) (clientHost ua : String)
    (cfg : DomainCfg)
    (hbad : ((if isWhite rtest ua cfg then cfg.whiteOrigin else cfg.blackOrigin).getD "") = ""
      ∨ parseURL ((if isWhite rtest ua cfg then cfg.whiteOrigin
          else cfg.blackOrigin).getD "") = none
      ∨ ∀ u, parseURL ((if isWhite rtest ua cfg then cfg.whiteOrigin
          else cfg.blackOrigin).getD "") = some u →
            u.protocol ≠ "http:" ∧ u.protocol ≠ "https:") :
    routerFn d rtest clientHost (some cfg) ua = ⟨"no-target-fallback", d, d⟩ := by
  unfold routerFn
  rcases hbad with hb | hb | hb
  · simp [hb]
  · by_cases hne : ((if isWhite rtest ua cfg then cfg.whiteOrigin
        else cfg.blackOrigin).getD "") != ""
    · simp [hne, hb]
    · simp [hne]
  · by_cases hne : ((if isWhite rtest ua cfg then cfg.whiteOrigin
        else cfg.blackOrigin).getD "") != ""
    · rcases hp : parseURL ((if isWhite rtest ua cfg then cfg.whiteOrigin
          else cfg.blackOrigin).getD "") with _ | u
      · simp [hne, hp]
      · obtain ⟨hs1, hs2⟩ := hb u hp
        simp [hne, hp, hs1, hs2]
    · simp [hne]

/-- Closed instance of C7: the classification selects a missing origin
field. -/
theorem c7_witness :
    routerFn "https://fb.example" rtFalse "shop.example.com"
      (some ⟨"shop.example.com", none, some "https://decoy.example.com", none, none⟩)
      "Googlebot/2.1" =
    ⟨"no-target-fallback", "https://fb.example", "https://fb.example"⟩ :=
  c7_no_target_fallback "https://fb.example" rtFalse "shop.example.com" "Googlebot/2.1"
    ⟨"shop.example.com", none, some "https://decoy.example.com", none, none⟩
    (Or.inl (by decide))

/-! ### C10 -/

/-- The configured default origin is never empty: the environment value
when non-empty, else the built-in literal. -/
theorem mkDefaultOrigin_ne_empty (env : Option String) : mkDefaultOrigin env ≠ "" := by
  unfold mkDefaultOrigin
  rcases env with _ | s
  · decide
  · by_cases hs : s = ""
    · simp [hs]
    · simp [hs]

/-- The total routing model always returns a non-empty target, either
the configured default origin or a candidate that parsed as an http(s)
URL; URL-parse failures are caught internally. -/
theorem routerFn_ret_spec (envDefault : Option String)
    (rtest : String → String → Bool) (clientHost : String)
    (cfg? : Option DomainCfg) (ua : String) :
    (routerFn (mkDefaultOrigin envDefault) rtest clientHost cfg? ua).ret ≠ "" ∧
    ((routerFn (mkDefaultOrigin envDefault) rtest clientHost cfg? ua).ret =
        mkDefaultOrigin envDefault ∨
      ∃ u, parseURL (routerFn (mkDefaultOrigin envDefault) rtest clientHost cfg? ua).ret =
          some u ∧ (u.protocol = "http:" ∨ u.protocol = "https:")) := by
  have hd := mkDefaultOrigin_ne_empty envDefault
  rcases cfg? with _ | cfg
  · exact ⟨hd, Or.inl rfl⟩
  · simp only [routerFn]
    by_cases hw : isWhite rtest ua cfg = true
    · simp only [hw, if_true]
      split
      next hne =>
        split
        next u hp =>
          split
          next hs =>
            split
            next hl => exact ⟨hd, Or.inl rfl⟩
            next hl => exact ⟨by simpa using hne, Or.inr ⟨u, hp, by simpa using hs⟩⟩
          next hs => exact ⟨hd, Or.inl rfl⟩
        next hp => exact ⟨hd, Or.inl rfl⟩
      next hne => exact ⟨hd, Or.inl rfl⟩
    · simp only [hw, if_false, Bool.false_eq_true]
      split
      next hne =>
        split
        next u hp =>
          split
          next hs =>
            split
            next hl => exact ⟨hd, Or.inl rfl⟩
            next hl => exact ⟨by simpa using hne, Or.inr ⟨u, hp, by simpa using hs⟩⟩
          next hs => exact ⟨hd, Or.inl rfl⟩
        next hp => exact ⟨hd, Or.inl rfl⟩
      next hne => exact ⟨hd, Or.inl rfl⟩

/-- When the policy's custom pattern, where present and non-empty,
compiles, the throw-tracking router returns normally and agrees with the
total routing model. -/
theorem routerFnE_ok (d : String) (rok : String → Bool)
    (rtest : String → String → Bool) (ch ua : String) (cfg? : Option DomainCfg)
    (hcomp : ∀ cfg rs p, cfg? = some cfg → cfg.rules = some rs →
      rs.uaBlock = some p → (p != "") = true → rok p = true) :
    routerFnE d rok rtest ch cfg? ua = .ok (routerFn d rtest ch cfg? ua) := by
  rcases cfg? with _ | cfg
  · rfl
  · rcases hr : cfg.rules with _ | rs
    · simp [routerFnE, isWhiteE, routerFn, isWhite, hr]
    · rcases hb : rs.uaBlock with _ | p
      · simp [routerFnE, isWhiteE, routerFn, isWhite, hr, hb]
      · by_cases hp : (p != "") = true
        · have hc := hcomp cfg rs p rfl hr hb hp
          simp [routerFnE, isWhiteE, routerFn, isWhite, hr, hb, hp, hc]
        · simp [routerFnE, isWhiteE, routerFn, isWhite, hr, hb, hp]

/-- C10 as stated fails on the code: with a policy whose custom pattern
is the malformed regex `(` — rejected by the RegExp constructor — the
classifier throws, the router invokes the classifier outside its try
block, and so the router throws instead of returning a target. -/
theorem c10_counterexample :
    routerFnE "https://fb.example" regexCompiles rtFalse "shop.example.com"
      (some cfgBadPattern) "Mozilla/5.0" = .error () ∧
    regexCompiles "(" = false := by
  constructor
  · rfl
  · rfl

/-- C10 amended: URL-parse failures are caught internally and the router
always returns a non-empty target string — either the configured default
origin or a candidate that parsed as an http(s) URL — provided the
policy's custom pattern, when present and non-empty, compiles; a policy
carrying a malformed custom pattern instead makes the classifier's
RegExp construction throw outside the router's try block, and the error
escapes the router. -/
theorem c10_router_totality (envDefault : Option String) (rok : String → Bool)
    (rtest : String → String → Bool) (clientHost : String)
    (cfg? : Option DomainCfg) (ua : String)
    (hcomp : ∀ cfg rs p, cfg? = some cfg → cfg.rules = some rs →
      rs.uaBlock = some p → (p != "") = true → rok p = true) :
    routerFnE (mkDefaultOrigin envDefault) rok rtest clientHost cfg? ua =
      .ok (routerFn (mkDefaultOrigin envDefault) rtest clientHost cfg? ua) ∧
    (routerFn (mkDefaultOrigin envDefault) rtest clientHost cfg? ua).ret ≠ "" ∧
    ((routerFn (mkDefaultOrigin envDefault) rtest clientHost cfg? ua).ret =
        mkDefaultOrigin envDefault ∨
      ∃ u, parseURL (routerFn (mkDefaultOrigin envDefault) rtest clientHost cfg? ua).ret =
          some u ∧ (u.protocol = "http:" ∨ u.protocol = "https:")) :=
  ⟨routerFnE_ok (mkDefaultOrigin envDefault) rok rtest clientHost ua cfg? hcomp,
    (routerFn_ret_spec envDefault rtest clientHost cfg? ua).1,
    (routerFn_ret_spec envDefault rtest clientHost cfg? ua).2⟩

/-- Closed instance of the amended C10: a policy with a compiling custom
pattern, at a concrete environment, client host and agent. -/
theorem c10_totality_witness :
    routerFnE (mkDefaultOrigin (some "https://fb.example")) regexCompiles rtFalse
        "shop.example.com" (some cfgCustom) "Mozilla/5.0" =
      .ok (routerFn (mkDefaultOrigin (some "https://fb.example")) rtFalse
        "shop.example.com" (some cfgCustom) "Mozilla/5.0") ∧
    (routerFn (mkDefaultOrigin (some "https://fb.example")) rtFalse
      "shop.example.com" (some cfgCustom) "Mozilla/5.0").ret ≠ "" ∧
    ((routerFn (mkDefaultOrigin (some "https://fb.example")) rtFalse
        "shop.example.com" (some cfgCustom) "Mozilla/5.0").ret =
        mkDefaultOrigin (some "https://fb.example") ∨
      ∃ u, parseURL (routerFn (mkDefaultOrigin (some "https://fb.example")) rtFalse
          "shop.example.com" (some cfgCustom) "Mozilla/5.0").ret =
          some u ∧ (u.protocol = "http:" ∨ u.protocol = "https:")) :=
  c10_router_totality (some "https://fb.example") regexCompiles rtFalse
    "shop.example.com" (some cfgCustom) "Mozilla/5.0"
    (by
      intro cfg rs p h1 h2 h3 h4
      injection h1 with h1
      subst h1
      rw [show cfgCustom.rules = some ⟨some "googlebot"⟩ from rfl] at h2
      injection h2 with h2
      subst h2
      have h5 : some "googlebot" = some p := h3
      injection h5 with h5
      subst h5
      decide)

/-! ### C8 -/

/-- C8: on the outbound leg, when the chosen target parses with a
non-empty host and the request carries the extracted client host, the
`Host` header is set to the target's host, both forwarded-host headers
carry the original client's host, and the forwarded-protocol header is
`https` exactly when the client connection was secure. -/
theorem c8_outbound_headers
    (d t ch : String) (u : URLParts) (h : HeadersIn) (secure : Bool)
    (ht : (t != "") = true) (hu : parseURL t = some u)
    (hhost : (u.host != "") = true) (hch : (ch != "") = true) :
    proxyReqRewrite d (some t) (some ch) h secure =
      ⟨some u.host, ch, ch, if secure then "https" else "http"⟩ ∧
    ((if secure then "https" else "http") = "https" ↔ secure = true) := by
  constructor
  · unfold proxyReqRewrite
    simp [ht, hu, hhost, hch]
  · rcases secure with _ | _
    · simp
    · simp

/-- Closed instance of C8: a secure request proxied to the scenario CDN
origin. -/
theorem c8_witness :
    proxyReqRewrite "https://fb.example" (some "https://cdn.example.com")
      (some "shop.example.com") ⟨"", "", "shop.example.com"⟩ true =
      ⟨some "cdn.example.com", "shop.example.com", "shop.example.com", "https"⟩ :=
  (c8_outbound_headers "https://fb.example" "https://cdn.example.com"
    "shop.example.com" ⟨"https:", "cdn.example.com"⟩ ⟨"", "", "shop.example.com"⟩
    true (by decide) (by decide) (by decide) (by decide)).1

/-! ### Further router helper lemmas -/

/-- When the classification is white and the white origin is a
non-looping http(s) URL, the router forwards to it with route `white`. -/
theorem routerFn_white (d : String) (rtest : String → String → Bool)
    (clientHost ua : String) (cfg : DomainCfg) (t : String) (u : URLParts)
    (hw : isWhite rtest ua cfg = true) (ht : cfg.whiteOrigin = some t)
    (hp : parseURL t = some u)
    (hs : u.protocol = "http:" ∨ u.protocol = "https:")
    (hl : jsToLower u.host ≠ clientHost) :
    routerFn d rtest clientHost (some cfg) ua = ⟨"white", t, t⟩ := by
  have hne : (t != "") = true := by
    rcases eq_or_ne t "" with h0 | h0
    · rw [h0] at hp
      rw [show parseURL "" = none from rfl] at hp
      exact Option.noConfusion hp
    · simpa using h0
  rcases hs with hs | hs <;>
    simp [routerFn, hw, ht, hne, hp, hs, hl]

/-- When the classification is black and the black origin is a
non-looping http(s) URL, the router forwards to it with route `black`. -/
theorem routerFn_black (d : String) (rtest : String → String → Bool)
    (clientHost ua : String) (cfg : DomainCfg) (t : String) (u : URLParts)
    (hw : isWhite rtest ua cfg = false) (ht : cfg.blackOrigin = some t)
    (hp : parseURL t = some u)
    (hs : u.protocol = "http:" ∨ u.protocol = "https:")
    (hl : jsToLower u.host ≠ clientHost) :
    routerFn d rtest clientHost (some cfg) ua = ⟨"black", t, t⟩ := by
  have hne : (t != "") = true := by
    rcases eq_or_ne t "" with h0 | h0
    · rw [h0] at hp
      rw [show parseURL "" = none from rfl] at hp
      exact Option.noConfusion hp
    · simpa using h0
  rcases hs with hs | hs <;>
    simp [routerFn, hw, ht, hne, hp, hs, hl]

/-- With a policy attached, the router's route label is always one of
`white`, `black`, `loop-fallback`, `no-target-fallback`. -/
theorem routerFn_route_mem (d : String) (rtest : String → String → Bool)
    (ch ua : String) (cfg : DomainCfg) :
    (routerFn d rtest ch (some cfg) ua).route = "white" ∨
    (routerFn d rtest ch (some cfg) ua).route = "black" ∨
    (routerFn d rtest ch (some cfg) ua).route = "loop-fallback" ∨
    (routerFn d rtest ch (some cfg) ua).route = "no-target-fallback" := by
  simp only [routerFn]
  by_cases hw : isWhite rtest ua cfg = true <;>
    simp only [hw, if_true, if_false, Bool.false_eq_true] <;>
    (repeat' split) <;> simp

/-- With any policy state, a non-empty default origin forces a
non-empty router target field. -/
theorem routerFn_target_ne_empty (d : String) (rtest : String → String → Bool)
    (ch : String) (cfg? : Option DomainCfg) (ua : String) (hd : d ≠ "") :
    (routerFn d rtest ch cfg? ua).target ≠ "" := by
  rcases cfg? with _ | cfg
  · simpa [routerFn] using hd
  · simp only [routerFn]
    by_cases hw : isWhite rtest ua cfg = true <;>
      simp only [hw, if_true, if_false, Bool.false_eq_true] <;>
      (repeat' split) <;> simp_all

/-- The router's route label is never the empty string. -/
theorem routerFn_route_ne_empty (d : String) (rtest : String → String → Bool)
    (ch : String) (cfg? : Option DomainCfg) (ua : String) :
    (routerFn d rtest ch cfg? ua).route ≠ "" := by
  rcases cfg? with _ | cfg
  · simp [routerFn]
  · simp only [routerFn]
    by_cases hw : isWhite rtest ua cfg = true <;>
      simp only [hw, if_true, if_false, Bool.false_eq_true] <;>
      (repeat' split) <;> simp

/-! ### C1 -/

/-- C1 as stated fails on the code: with the scenario policy (both
origins set, no custom pattern) and agent `Googlebot/2.1`, the router
decides route `white` with the WHITE origin as target — not route
`black` with the black origin, as claimed. -/
theorem c1_counterexample :
    (routerFn "https://fb.example" rtFalse "shop.example.com" (some cfgShop)
      "Googlebot/2.1").route = "white" ∧
    (routerFn "https://fb.example" rtFalse "shop.example.com" (some cfgShop)
      "Googlebot/2.1").target = "https://cdn.example.com" ∧
    ¬((routerFn "https://fb.example" rtFalse "shop.example.com" (some cfgShop)
        "Googlebot/2.1").route = "black" ∧
      (routerFn "https://fb.example" rtFalse "shop.example.com" (some cfgShop)
        "Googlebot/2.1").target = "https://decoy.example.com") := by
  decide

/-- C1 amended: the classifier reports the effective pattern's verdict —
the policy's non-empty `uaBlock` pattern when present, else the built-in
bot pattern — and a MATCH classifies the request as `white` (routed to
the white origin) while a non-match classifies it as `black` (routed to
the black origin). In particular `Googlebot/2.1` under the scenario
policy yields route `white` with the white origin as target. -/
theorem c1_classifier_routing (d : String) (rtest : String → String → Bool)
    (clientHost ua : String) (cfg : DomainCfg) :
    (∀ rs p, cfg.rules = some rs → rs.uaBlock = some p → (p != "") = true →
      isWhite rtest ua cfg = rtest p ua) ∧
    (cfg.rules = none → isWhite rtest ua cfg = defaultUAMatch ua) ∧
    (∀ t u, isWhite rtest ua cfg = true → cfg.whiteOrigin = some t →
      parseURL t = some u → (u.protocol = "http:" ∨ u.protocol = "https:") →
      jsToLower u.host ≠ clientHost →
      routerFn d rtest clientHost (some cfg) ua = ⟨"white", t, t⟩) ∧
    (∀ t u, isWhite rtest ua cfg = false → cfg.blackOrigin = some t →
      parseURL t = some u → (u.protocol = "http:" ∨ u.protocol = "https:") →
      jsToLower u.host ≠ clientHost →
      routerFn d rtest clientHost (some cfg) ua = ⟨"black", t, t⟩) ∧
    routerFn d rtest "shop.example.com" (some cfgShop) "Googlebot/2.1" =
      ⟨"white", "https://cdn.example.com", "https://cdn.example.com"⟩ := by
  refine ⟨?_, ?_, ?_, ?_, ?_⟩
  · intro rs p hr hb hp
    simp [isWhite, hr, hb, hp]
  · intro hr
    simp [isWhite, hr]
  · intro t u hw ht hp hs hl
    exact routerFn_white d rtest clientHost ua cfg t u hw ht hp hs hl
  · intro t u hw ht hp hs hl
    exact routerFn_black d rtest clientHost ua cfg t u hw ht hp hs hl
  · refine routerFn_white d rtest "shop.example.com" "Googlebot/2.1" cfgShop
      "https://cdn.example.com" ⟨"https:", "cdn.example.com"⟩ ?_ rfl (by decide)
      (Or.inr rfl) (by decide)
    show defaultUAMatch "Googlebot/2.1" = true
    decide

/-- Closed instance of the amended C1: the scenario decision, obtained
through the routing conjunct of the theorem. -/
theorem c1_witness :
    routerFn "https://fb.example" rtFalse "shop.example.com" (some cfgShop)
      "Googlebot/2.1" =
    ⟨"white", "https://cdn.example.com", "https://cdn.example.com"⟩ :=
  (c1_classifier_routing "https://fb.example" rtFalse "shop.example.com"
    "Googlebot/2.1" cfgShop).2.2.2.2

/-! ### C9 -/

/-- C9 as stated fails on the code: a request under `/api` is proxied
(to the policy API) by a middleware that attaches none of the three
diagnostic headers. -/
theorem c9_counterexample :
    isProxiedResponse (edgeHandle "https://fb.example" rtFalse
      (.ok (some cfgShop))
      ⟨"/api/users", ⟨"", "", "shop.example.com"⟩, "Mozilla/5.0", true⟩) = true ∧
    responseRouteHeader (edgeHandle "https://fb.example" rtFalse
      (.ok (some cfgShop))
      ⟨"/api/users", ⟨"", "", "shop.example.com"⟩, "Mozilla/5.0", true⟩) = none ∧
    responseTargetHeader (edgeHandle "https://fb.example" rtFalse
      (.ok (some cfgShop))
      ⟨"/api/users", ⟨"", "", "shop.example.com"⟩, "Mozilla/5.0", true⟩) = none ∧
    responseHostHeader (edgeHandle "https://fb.example" rtFalse
      (.ok (some cfgShop))
      ⟨"/api/users", ⟨"", "", "shop.example.com"⟩, "Mozilla/5.0", true⟩) = none := by
  decide

/-- C9 amended: every response proxied by the MAIN proxy carries the
three diagnostic headers — `x-edge-host` equals the extracted client
host, `x-edge-route` is one of the five route labels, and
`x-edge-target` is the (non-empty) origin the router chose — while
requests under `/api` are proxied without them. -/
theorem c9_main_proxy_headers (d : String) (rtest : String → String → Bool)
    (res : Except ResolveError (Option DomainCfg)) (req : EdgeRequest)
    (route target hh : String) (hd : d ≠ "")
    (h : edgeHandle d rtest res req = .mainProxied route target hh) :
    (route = "white" ∨ route = "black" ∨ route = "fallback" ∨
      route = "loop-fallback" ∨ route = "no-target-fallback") ∧
    hh = getClientHost req.headers ∧ target ≠ "" ∧
    ∃ cfg, res = .ok (some cfg) ∧
      route = (routerFn d rtest (getClientHost req.headers) (some cfg)
        req.userAgent).route ∧
      target = (routerFn d rtest (getClientHost req.headers) (some cfg)
        req.userAgent).target := by
  simp only [edgeHandle] at h
  split at h
  · exact EdgeResponse.noConfusion h
  · split at h
    · exact EdgeResponse.noConfusion h
    · split at h
      · exact EdgeResponse.noConfusion h
      · split at h
        · exact EdgeResponse.noConfusion h
        · split at h
          · exact EdgeResponse.noConfusion h
          · rcases res with e | cfg?
            · exact EdgeResponse.noConfusion h
            · rcases cfg? with _ | cfg
              · exact EdgeResponse.noConfusion h
              · simp only [proxyResRewrite] at h
                have hrne := routerFn_route_ne_empty d rtest
                  (getClientHost req.headers) (some cfg) req.userAgent
                have htne := routerFn_target_ne_empty d rtest
                  (getClientHost req.headers) (some cfg) req.userAgent hd
                rw [if_pos (by simpa using hrne), if_pos (by simpa using htne),
                  ite_self] at h
                injection h with h1 h2 h3
                subst h1
                subst h2
                subst h3
                refine ⟨?_, rfl, htne, cfg, rfl, rfl, rfl⟩
                rcases routerFn_route_mem d rtest (getClientHost req.headers)
                    req.userAgent cfg with hm | hm | hm | hm
                · exact Or.inl hm
                · exact Or.inr (Or.inl hm)
                · exact Or.inr (Or.inr (Or.inr (Or.inl hm)))
                · exact Or.inr (Or.inr (Or.inr (Or.inr hm)))

/-- Closed instance of the amended C9: an ordinary page request carried
through the main proxy, with the three headers reflecting the routing
decision. -/
theorem c9_witness :
    ("black" = "white" ∨ "black" = "black" ∨ "black" = "fallback" ∨
      "black" = "loop-fallback" ∨ "black" = "no-target-fallback") ∧
    "shop.example.com" =
      getClientHost (⟨"", "", "shop.example.com"⟩ : HeadersIn) ∧
    "https://decoy.example.com" ≠ "" ∧
    ∃ cfg, (Except.ok (some cfgShop) :
        Except ResolveError (Option DomainCfg)) = .ok (some cfg) ∧
      "black" = (routerFn "https://fb.example" rtFalse
        (getClientHost (⟨"", "", "shop.example.com"⟩ : HeadersIn)) (some cfg)
        "Mozilla/5.0").route ∧
      "https://decoy.example.com" = (routerFn "https://fb.example" rtFalse
        (getClientHost (⟨"", "", "shop.example.com"⟩ : HeadersIn)) (some cfg)
        "Mozilla/5.0").target :=
  c9_main_proxy_headers "https://fb.example" rtFalse (.ok (some cfgShop))
    ⟨"/", ⟨"", "", "shop.example.com"⟩, "Mozilla/5.0", true⟩
    "black" "https://decoy.example.com" "shop.example.com"
    (by decide) (by decide)
